import Mathlib

/-!
Verification of the GarIA detection-result pipeline.

Shallow embedding of the repository's core detection logic:
  * `src/app/domain/ml/entities.py` — `BoundingBox`, `Detection`,
    `DetectionResult`, `ModelConfiguration`;
  * `src/app/services/ml/object_detection_service.py` —
    `ObjectDetectionService`;
  * `src/app/infrastructure/ml/yolo_model.py` — `YOLOModelLoader`,
    `YOLOInference`.

Python floats are modelled as rationals (`ℚ`), Python ints as `Int`,
`Optional[X]` as `Option X`, raised exceptions as `Except String`,
and the external collaborators (`ultralytics.YOLO`, PIL, the clock,
the filesystem) as an explicit deterministic environment record `Env`.
Mutable object state (`self.model_config`, the loader's `self.model` /
`self.model_path`) is threaded explicitly as a `ServiceState`.
-/

/-! ## Domain entities (`src/app/domain/ml/entities.py`) -/

/-- `BoundingBox` dataclass: four coordinates. -/
structure BoundingBox where
  x1 : ℚ
  y1 : ℚ
  x2 : ℚ
  y2 : ℚ
deriving DecidableEq, Repr

/-- `BoundingBox.width` property: `x2 - x1`. -/
def BoundingBox.width (b : BoundingBox) : ℚ := b.x2 - b.x1

/-- `BoundingBox.height` property: `y2 - y1`. -/
def BoundingBox.height (b : BoundingBox) : ℚ := b.y2 - b.y1

/-- `BoundingBox.area` property: `width * height`. -/
def BoundingBox.area (b : BoundingBox) : ℚ := b.width * b.height

/-- `BoundingBox.center` property: `((x1+x2)/2, (y1+y2)/2)`. -/
def BoundingBox.center (b : BoundingBox) : ℚ × ℚ :=
  ((b.x1 + b.x2) / 2, (b.y1 + b.y2) / 2)

/-- The `bbox_normalized` dict `{x, y, width, height}` attached to a
detection when the detector supplies a normalized box. -/
structure NormalizedBox where
  x : ℚ
  y : ℚ
  width : ℚ
  height : ℚ
deriving DecidableEq, Repr

/-- `Detection` dataclass. -/
structure Detection where
  class_id : Int
  class_name : String
  confidence : ℚ
  bbox : BoundingBox
  bbox_normalized : Option NormalizedBox := none
deriving DecidableEq, Repr

/-- `Detection.is_valid(min_confidence=0.0)`:
`confidence >= min_confidence and 0 <= confidence <= 1.0 and
bbox.width > 0 and bbox.height > 0`. -/
def Detection.is_valid (d : Detection) (min_confidence : ℚ := 0) : Bool :=
  decide (min_confidence ≤ d.confidence) &&
  decide (0 ≤ d.confidence) && decide (d.confidence ≤ 1) &&
  decide (0 < d.bbox.width) &&
  decide (0 < d.bbox.height)

/-- `image_info` mapping (`Dict[str, Any]`), modelled as an association
list of string entries; the batch failure path stores `{"error": str(e)}`. -/
abbrev ImageInfo := List (String × String)

/-- `YOLOModelLoader.get_model_info()` result: either
`{"status": "not_loaded"}` or the loaded record with model path,
device and task. -/
inductive ModelInfo where
  | not_loaded
  | loaded (model_path : Option String) (device : String) (task : String)
deriving DecidableEq, Repr

/-- `DetectionResult` dataclass.  The Python `timestamp: datetime` is a
rational point in time. -/
structure DetectionResult where
  detections : List Detection
  image_info : ImageInfo
  processing_time : ℚ
  model_info : ModelInfo
  timestamp : ℚ
deriving DecidableEq, Repr

/-- `DetectionResult.detection_count` property. -/
def DetectionResult.detection_count (r : DetectionResult) : Nat :=
  r.detections.length

/-- `DetectionResult.unique_classes`: `list(set(d.class_name for d in
self.detections))`.  A Python `set` iterates in an unspecified order;
we determinize by keeping the first occurrence of each name
(`eraseDups`), which realizes one admissible iteration order.  The
claims below use only its emptiness/membership, never its order. -/
def DetectionResult.unique_classes (r : DetectionResult) : List String :=
  (r.detections.map (·.class_name)).eraseDups

/-- `DetectionResult.filter_by_confidence(min_confidence)`:
`[d for d in self.detections if d.confidence >= min_confidence]`. -/
def DetectionResult.filter_by_confidence (r : DetectionResult)
    (min_confidence : ℚ) : List Detection :=
  r.detections.filter (fun d => decide (min_confidence ≤ d.confidence))

/-- `DetectionResult.filter_by_class(class_names)`:
`[d for d in self.detections if d.class_name in class_names]`. -/
def DetectionResult.filter_by_class (r : DetectionResult)
    (class_names : List String) : List Detection :=
  r.detections.filter (fun d => class_names.contains d.class_name)

/-- The statistics record `get_statistics` returns.  `processing_time`
is `Option ℚ` because the empty-detections branch of the Python code
returns a dict without a `"processing_time"` key. -/
structure Stats where
  total_detections : Nat
  unique_classes : List String
  avg_confidence : ℚ
  max_confidence : ℚ
  min_confidence : ℚ
  processing_time : Option ℚ
deriving DecidableEq, Repr

/-- `DetectionResult.get_statistics()`.  Empty case: the literal
zero-valued dict (no `"processing_time"` key).  Nonempty case:
`sum/len`, `max(...)`, `min(...)` over the confidences, plus the
stored processing time. -/
def DetectionResult.get_statistics (r : DetectionResult) : Stats :=
  match r.detections with
  | [] =>
    { total_detections := 0
      unique_classes := []
      avg_confidence := 0
      max_confidence := 0
      min_confidence := 0
      processing_time := none }
  | d :: ds =>
    let confidences := (d :: ds).map (·.confidence)
    { total_detections := (d :: ds).length
      unique_classes := r.unique_classes
      avg_confidence := confidences.sum / (confidences.length : ℚ)
      max_confidence := (ds.map (·.confidence)).foldl max d.confidence
      min_confidence := (ds.map (·.confidence)).foldl min d.confidence
      processing_time := some r.processing_time }

/-- `ModelConfiguration` dataclass with its Python field defaults
(`0.25`, `0.45`, `1000`, `target_classes=None`). -/
structure ModelConfiguration where
  model_name : String
  model_path : String
  confidence_threshold : ℚ := mkRat 1 4
  iou_threshold : ℚ := mkRat 9 20
  max_detections : Int := 1000
  target_classes : Option (List String) := none
deriving DecidableEq, Repr

/-- `ModelConfiguration.is_valid()`:
`0.0 <= confidence_threshold <= 1.0 and 0.0 <= iou_threshold <= 1.0
and max_detections > 0`. -/
def ModelConfiguration.is_valid (c : ModelConfiguration) : Bool :=
  decide (0 ≤ c.confidence_threshold) && decide (c.confidence_threshold ≤ 1) &&
  decide (0 ≤ c.iou_threshold) && decide (c.iou_threshold ≤ 1) &&
  decide (0 < c.max_detections)

/-! ## External environment and infrastructure
(`src/app/infrastructure/ml/yolo_model.py`) -/

/-- An image source (`Union[str, Image.Image, np.ndarray]`), identified
opaquely; the pipeline only passes it to the environment. -/
abbrev ImageSource := String

/-- A loaded `ultralytics.YOLO` model object: an opaque identity plus
the `device` / `task` attributes `get_model_info` reads. -/
structure ModelHandle where
  id : Nat
  device : String
  task : String
deriving DecidableEq, Repr

/-- The merged per-request configuration dict produced by
`_merge_configs` and consumed by `YOLOInference.predict`: keys
`"confidence"`, `"iou_threshold"`, `"max_detections"` always present,
`"class_ids"` only when the caller's override dict supplied it. -/
structure MergedConfig where
  confidence : ℚ
  iou_threshold : ℚ
  max_detections : Int
  class_ids : Option (List Int) := none
deriving DecidableEq, Repr

/-- One raw prediction dict returned by `YOLOInference.predict`. -/
structure RawDetection where
  class_id : Int
  class_name : String
  confidence : ℚ
  x1 : ℚ
  y1 : ℚ
  x2 : ℚ
  y2 : ℚ
  bbox_normalized : Option NormalizedBox := none
deriving DecidableEq, Repr

/-- The external world, fixed for a run: the filesystem probe used by
`load_model`, the `YOLO(...)` constructor, the loaded model's
`__call__` (together with the result-unpacking loop of `predict`,
which only reformats its output), `_get_image_info` (which catches
its own exceptions and always returns a dict), the measured elapsed
time of a successful detection, and `datetime.now()`.  Determinism is
an abstraction: each theorem quantifies over all environments. -/
structure Env where
  path_exists : String → Bool
  yolo_load : String → Except String ModelHandle
  infer : ModelHandle → ImageSource → MergedConfig → Except String (List RawDetection)
  image_info : ImageSource → ImageInfo
  elapsed : ImageSource → ℚ
  now : ℚ

/-- Mutable fields of `YOLOModelLoader`: `self.model`, `self.model_path`. -/
structure LoaderState where
  model : Option ModelHandle := none
  model_path : Option String := none
deriving DecidableEq, Repr

/-- The path actually handed to `YOLO(...)` by `load_model`:
`os.path.join("models", model_name)`, with a fallback to the bare name
when that file is missing. -/
def resolve_model_path (env : Env) (model_name : String) : String :=
  if env.path_exists ("models/" ++ model_name) then "models/" ++ model_name
  else model_name

/-- The fresh-load path of `YOLOModelLoader.load_model` (its body past
the memoization guard): call `YOLO(model_path)`, and on success store
the model and the model name.  On failure the exception propagates and
neither field is assigned. -/
def load_model_fresh (env : Env) (s : LoaderState) (model_name : String) :
    Except String ModelHandle × LoaderState :=
  match env.yolo_load (resolve_model_path env model_name) with
  | .ok h => (.ok h, { model := some h, model_path := some model_name })
  | .error e => (.error e, s)

/-- `YOLOModelLoader.load_model(model_name="yolov8n.pt")`: if a model is
already loaded and `self.model_path == model_name`, return it
unchanged; otherwise perform the fresh load. -/
def load_model (env : Env) (s : LoaderState) (model_name : String) :
    Except String ModelHandle × LoaderState :=
  match s.model with
  | some m =>
    if s.model_path = some model_name then (.ok m, s)
    else load_model_fresh env s model_name
  | none => load_model_fresh env s model_name

/-- `YOLOModelLoader.get_model_info()`. -/
def get_model_info (s : LoaderState) : ModelInfo :=
  match s.model with
  | none => .not_loaded
  | some m => .loaded s.model_path m.device m.task

/-- `YOLOInference.predict(...)`: raises when no model is loaded,
otherwise runs the loaded model on the source with the merged
thresholds. -/
def predict (env : Env) (s : LoaderState) (source : ImageSource)
    (cfg : MergedConfig) : Except String (List RawDetection) :=
  match s.model with
  | none => .error "Modelo não carregado. Chame load_model() primeiro."
  | some m => env.infer m source cfg

/-! ## Orchestration service
(`src/app/services/ml/object_detection_service.py`) -/

/-- Mutable fields of `ObjectDetectionService` relevant to the claims:
`self.model_config` and the loader it owns.  (`self.config` is the
Flask `Config` object, never read on these paths.) -/
structure ServiceState where
  model_config : Option ModelConfiguration := none
  loader : LoaderState := {}
deriving DecidableEq, Repr

/-- The caller's override dict `custom_config: Dict[str, Any]`; a key's
absence is `none`.  `class_ids` is the only extra key the service
reads (`config.get("class_ids")`). -/
structure CustomConfig where
  confidence : Option ℚ := none
  iou_threshold : Option ℚ := none
  max_detections : Option Int := none
  class_ids : Option (List Int) := none
deriving DecidableEq, Repr

/-- `ObjectDetectionService.initialize_model(model_config)`: the
validity check raises `ValueError`, which the method's own
`except Exception` swallows into `False`, leaving `self.model_config`
unassigned; on a valid configuration `self.model_config` is assigned
BEFORE `load_model` runs, so it stays assigned even when loading
fails (also swallowed into `False`). -/
def initialize_model (env : Env) (s : ServiceState)
    (model_config : ModelConfiguration) : Bool × ServiceState :=
  if model_config.is_valid then
    let s1 : ServiceState := { s with model_config := some model_config }
    match load_model env s1.loader model_config.model_name with
    | (.ok _, ls) => (true, { s1 with loader := ls })
    | (.error _, ls) => (false, { s1 with loader := ls })
  else (false, s)

/-- `ObjectDetectionService._merge_configs(custom_config)` under the
guard `self.model_config is not None`: the defaults dict built from
the active configuration, `dict.update`d with the caller's keys. -/
def merge_configs (active : ModelConfiguration) (cc : CustomConfig) :
    MergedConfig :=
  { confidence := cc.confidence.getD active.confidence_threshold
    iou_threshold := cc.iou_threshold.getD active.iou_threshold
    max_detections := cc.max_detections.getD active.max_detections
    class_ids := cc.class_ids }

/-- `ObjectDetectionService._convert_to_domain_entities(raw_detections)`. -/
def convert_to_domain_entities (raw : List RawDetection) : List Detection :=
  raw.map fun r =>
    { class_id := r.class_id
      class_name := r.class_name
      confidence := r.confidence
      bbox := { x1 := r.x1, y1 := r.y1, x2 := r.x2, y2 := r.y2 }
      bbox_normalized := r.bbox_normalized }

/-- The `ModelConfiguration` literal `detect_objects` builds from the
caller's dict: hard-coded model identifier, `custom_config.get`
with the documented fallbacks, and (implicitly) `target_classes=None`. -/
def constructed_config (cc : CustomConfig) : ModelConfiguration :=
  { model_name := "GarIA.pt"
    model_path := "models/GarIA.pt"
    confidence_threshold := cc.confidence.getD (mkRat 1 4)
    iou_threshold := cc.iou_threshold.getD (mkRat 9 20)
    max_detections := cc.max_detections.getD 1000 }

/-- The body of `detect_objects` after `initialize_model` has run (the
`if self.model_config is None` guard and the `try` block): merge,
infer, convert, target-class filter, assemble the result.  Any
exception in the `try` block is re-raised, with the state updates so
far kept. -/
def detect_after_init (env : Env) (s1 : ServiceState) (source : ImageSource)
    (cc : CustomConfig) : Except String DetectionResult × ServiceState :=
  match s1.model_config with
  | none =>
    (.error "Modelo não inicializado. Chame initialize_model() primeiro.", s1)
  | some amc =>
    match predict env s1.loader source (merge_configs amc cc) with
    | .error e => (.error e, s1)
    | .ok raw =>
      let detections := convert_to_domain_entities raw
      let detections := match amc.target_classes with
        | some tcs => detections.filter (fun d => tcs.contains d.class_name)
        | none => detections
      (.ok { detections := detections
             image_info := env.image_info source
             processing_time := env.elapsed source
             model_info := get_model_info s1.loader
             timestamp := env.now }, s1)

/-- `ObjectDetectionService.detect_objects(image_source,
custom_config=None)`.  With the default `None`, the very first
statement `custom_config.get('confidence', 0.25)` raises
`AttributeError` (no guard), before any validation, load or
inference.  Otherwise the freshly constructed configuration is passed
to `initialize_model` (return value ignored) and the run proceeds. -/
def detect_objects (env : Env) (s : ServiceState) (source : ImageSource)
    (custom_config : Option CustomConfig) :
    Except String DetectionResult × ServiceState :=
  match custom_config with
  | none =>
    (.error "AttributeError: 'NoneType' object has no attribute 'get'", s)
  | some cc =>
    detect_after_init env
      (initialize_model env s (constructed_config cc)).2 source cc

/-- The degraded result a failed batch item receives: empty detections,
the error text in `image_info`, zero processing time, the loader's
current provenance. -/
def batch_error_result (env : Env) (ls : LoaderState) (e : String) :
    DetectionResult :=
  { detections := []
    image_info := [("error", e)]
    processing_time := 0
    model_info := get_model_info ls
    timestamp := env.now }

/-- One iteration of the batch loop's `try/except`: the successful
result, or the degraded result built from the caught exception and the
loader state at the time it was raised. -/
def batch_slot (env : Env) (s : ServiceState) (cc : Option CustomConfig)
    (source : ImageSource) : DetectionResult :=
  match (detect_objects env s source cc).1 with
  | .ok r => r
  | .error e => batch_error_result env (detect_objects env s source cc).2.loader e

/-- `ObjectDetectionService.detect_objects_batch(image_sources,
custom_config=None)`: sequential loop, each item's exception caught
and replaced by a degraded `DetectionResult`. -/
def detect_objects_batch (env : Env) (s : ServiceState)
    (sources : List ImageSource) (custom_config : Option CustomConfig) :
    List DetectionResult × ServiceState :=
  match sources with
  | [] => ([], s)
  | source :: rest =>
    let q := detect_objects_batch env
      (detect_objects env s source custom_config).2 rest custom_config
    (batch_slot env s custom_config source :: q.1, q.2)

/-! ## Helper lemmas (shared) -/

lemma le_foldl_max : ∀ (l : List ℚ) (a : ℚ), a ≤ l.foldl max a
  | [], _ => le_refl _
  | b :: l, a => le_trans (le_max_left a b) (le_foldl_max l (max a b))

lemma mem_le_foldl_max : ∀ (l : List ℚ) (a x : ℚ), x ∈ l → x ≤ l.foldl max a
  | b :: l, a, x, h => by
    rcases List.mem_cons.mp h with rfl | h2
    · exact le_trans (le_max_right a x) (le_foldl_max l _)
    · exact mem_le_foldl_max l _ x h2

lemma foldl_max_mem : ∀ (l : List ℚ) (a : ℚ), l.foldl max a = a ∨ l.foldl max a ∈ l
  | [], _ => Or.inl rfl
  | b :: l, a => by
    rcases foldl_max_mem l (max a b) with h | h
    · rw [List.foldl_cons, h]
      rcases max_cases a b with ⟨h2, _⟩ | ⟨h2, _⟩
      · exact Or.inl h2
      · exact Or.inr (by rw [h2]; exact List.mem_cons_self b l)
    · exact Or.inr (List.mem_cons_of_mem _ h)

lemma foldl_min_le : ∀ (l : List ℚ) (a : ℚ), l.foldl min a ≤ a
  | [], _ => le_refl _
  | b :: l, a => le_trans (foldl_min_le l (min a b)) (min_le_left a b)

lemma foldl_min_le_mem : ∀ (l : List ℚ) (a x : ℚ), x ∈ l → l.foldl min a ≤ x
  | b :: l, a, x, h => by
    rcases List.mem_cons.mp h with rfl | h2
    · exact le_trans (foldl_min_le l _) (min_le_right a x)
    · exact foldl_min_le_mem l _ x h2

lemma foldl_min_mem : ∀ (l : List ℚ) (a : ℚ), l.foldl min a = a ∨ l.foldl min a ∈ l
  | [], _ => Or.inl rfl
  | b :: l, a => by
    rcases foldl_min_mem l (min a b) with h | h
    · rw [List.foldl_cons, h]
      rcases min_cases a b with ⟨h2, _⟩ | ⟨h2, _⟩
      · exact Or.inl h2
      · exact Or.inr (by rw [h2]; exact List.mem_cons_self b l)
    · exact Or.inr (List.mem_cons_of_mem _ h)

/-! ## Claims about the domain entities -/

/-- C3: `Detection.is_valid(c)` is true exactly when the confidence
clears the caller's minimum, the confidence lies in `[0,1]`, and the
bounding box has positive width and height; on a degenerate box it
returns `false` (it is a total Bool-valued function, so it cannot
raise). -/
theorem detection_is_valid_spec (d : Detection) (c : ℚ) :
    (d.is_valid c = true ↔
      c ≤ d.confidence ∧ 0 ≤ d.confidence ∧ d.confidence ≤ 1 ∧
      0 < d.bbox.width ∧ 0 < d.bbox.height) ∧
    (d.bbox.width ≤ 0 ∨ d.bbox.height ≤ 0 → d.is_valid c = false) := by
  constructor
  · simp [Detection.is_valid, and_assoc]
  · intro h
    rcases h with h | h <;> simp [Detection.is_valid, not_lt.mpr h]

/-- Witness for C3 at concrete inputs: a confident detection with a
real box is valid at threshold `0.25`; a zero-width box makes the
detection invalid (returning `false`, not an error). -/
theorem detection_is_valid_spec_witness :
    ((⟨0, "bottle", 9/10, ⟨0, 0, 10, 10⟩, none⟩ : Detection).is_valid (1/4) = true) ∧
    ((⟨1, "bag", 9/10, ⟨5, 5, 5, 9⟩, none⟩ : Detection).is_valid (1/4) = false) :=
  ⟨(detection_is_valid_spec ⟨0, "bottle", 9/10, ⟨0, 0, 10, 10⟩, none⟩ (1/4)).1.mpr
      (by norm_num [BoundingBox.width, BoundingBox.height]),
   (detection_is_valid_spec ⟨1, "bag", 9/10, ⟨5, 5, 5, 9⟩, none⟩ (1/4)).2
      (Or.inl (by norm_num [BoundingBox.width]))⟩

/-- C5: `filter_by_confidence` is sound (every returned detection
clears the threshold), complete (every stored detection clearing the
threshold is returned), and returns an order-preserving subsequence of
the stored detections, which it does not modify. -/
theorem filter_by_confidence_spec (r : DetectionResult) (c : ℚ) :
    (∀ d ∈ r.filter_by_confidence c, c ≤ d.confidence) ∧
    (∀ d ∈ r.detections, c ≤ d.confidence → d ∈ r.filter_by_confidence c) ∧
    List.Sublist (r.filter_by_confidence c) r.detections := by
  refine ⟨?_, ?_, List.filter_sublist _⟩
  · intro d hd
    simpa using List.of_mem_filter hd
  · intro d hd hc
    exact List.mem_filter.mpr ⟨hd, by simpa using hc⟩

/-- Witness for C5 at a concrete result: of two stored detections the
one clearing the threshold is kept and the other is not in the way of
its membership obligations. -/
theorem filter_by_confidence_spec_witness :
    (⟨0, "bottle", 9/10, ⟨0, 0, 10, 10⟩, none⟩ : Detection) ∈
      (⟨[⟨0, "bottle", 9/10, ⟨0, 0, 10, 10⟩, none⟩,
         ⟨1, "bag", 1/10, ⟨5, 5, 8, 8⟩, none⟩], [], 1, .not_loaded, 0⟩ :
        DetectionResult).filter_by_confidence (1/2) :=
  (filter_by_confidence_spec
      ⟨[⟨0, "bottle", 9/10, ⟨0, 0, 10, 10⟩, none⟩,
        ⟨1, "bag", 1/10, ⟨5, 5, 8, 8⟩, none⟩], [], 1, .not_loaded, 0⟩ (1/2)).2.1
    ⟨0, "bottle", 9/10, ⟨0, 0, 10, 10⟩, none⟩ (by simp) (by norm_num)

/-- C4 counterexample: on an empty detection sequence (here with a
stored processing time of `5`), the statistics record returned by the
code carries NO processing-time entry, contradicting the claim that
every returned record contains `processing_time`. -/
theorem get_statistics_empty_omits_processing_time :
    (DetectionResult.get_statistics ⟨[], [], 5, .not_loaded, 0⟩).processing_time
      = none ∧ (5 : ℚ) ≠ 0 := by
  exact ⟨rfl, by norm_num⟩

/-- C4 (amended): `get_statistics` never fails; on an empty detection
sequence it returns the zero-valued record — whose `processing_time`
entry is, however, omitted — and on a nonempty sequence it returns the
count, the class list, the exact average, the maximum and minimum
confidence (attained bounds), and the stored processing time. -/
theorem get_statistics_spec (r : DetectionResult) :
    (r.detections = [] →
      r.get_statistics =
        { total_detections := 0, unique_classes := [], avg_confidence := 0,
          max_confidence := 0, min_confidence := 0, processing_time := none }) ∧
    (r.detections ≠ [] →
      r.get_statistics.total_detections = r.detections.length ∧
      r.get_statistics.unique_classes = r.unique_classes ∧
      r.get_statistics.avg_confidence =
        (r.detections.map (·.confidence)).sum / (r.detections.length : ℚ) ∧
      (∀ d ∈ r.detections, d.confidence ≤ r.get_statistics.max_confidence) ∧
      (∃ d ∈ r.detections, r.get_statistics.max_confidence = d.confidence) ∧
      (∀ d ∈ r.detections, r.get_statistics.min_confidence ≤ d.confidence) ∧
      (∃ d ∈ r.detections, r.get_statistics.min_confidence = d.confidence) ∧
      r.get_statistics.processing_time = some r.processing_time) := by
  obtain ⟨dets, info, pt, mi, ts⟩ := r
  cases dets with
  | nil =>
    exact ⟨fun _ => rfl, fun h => absurd rfl h⟩
  | cons d ds =>
    refine ⟨fun h => by simp at h, fun _ => ?_⟩
    refine ⟨rfl, rfl, by simp [DetectionResult.get_statistics], ?_, ?_, ?_, ?_, rfl⟩
    · intro x hx
      rcases List.mem_cons.mp hx with rfl | hx2
      · exact le_foldl_max _ _
      · exact mem_le_foldl_max _ _ _ (List.mem_map_of_mem (·.confidence) hx2)
    · rcases foldl_max_mem (ds.map (·.confidence)) d.confidence with h | h
      · exact ⟨d, List.mem_cons_self d ds, h⟩
      · obtain ⟨x, hx, hxe⟩ := List.mem_map.mp h
        exact ⟨x, List.mem_cons_of_mem d hx, hxe.symm⟩
    · intro x hx
      rcases List.mem_cons.mp hx with rfl | hx2
      · exact foldl_min_le _ _
      · exact foldl_min_le_mem _ _ _ (List.mem_map_of_mem (·.confidence) hx2)
    · rcases foldl_min_mem (ds.map (·.confidence)) d.confidence with h | h
      · exact ⟨d, List.mem_cons_self d ds, h⟩
      · obtain ⟨x, hx, hxe⟩ := List.mem_map.mp h
        exact ⟨x, List.mem_cons_of_mem d hx, hxe.symm⟩

/-- Witness for C4 (amended) at concrete results: the empty result's
statistics are the zero record, and a two-detection result reports its
stored processing time. -/
theorem get_statistics_spec_witness :
    (DetectionResult.get_statistics ⟨[], [], 5, .not_loaded, 0⟩ =
      { total_detections := 0, unique_classes := [], avg_confidence := 0,
        max_confidence := 0, min_confidence := 0, processing_time := none }) ∧
    (DetectionResult.get_statistics
        ⟨[⟨0, "bottle", 9/10, ⟨0, 0, 10, 10⟩, none⟩,
          ⟨1, "bag", 1/10, ⟨5, 5, 8, 8⟩, none⟩], [], 2, .not_loaded, 0⟩
      ).processing_time = some 2 :=
  ⟨(get_statistics_spec ⟨[], [], 5, .not_loaded, 0⟩).1 rfl,
   ((get_statistics_spec
        ⟨[⟨0, "bottle", 9/10, ⟨0, 0, 10, 10⟩, none⟩,
          ⟨1, "bag", 1/10, ⟨5, 5, 8, 8⟩, none⟩], [], 2, .not_loaded, 0⟩).2
      (by simp)).2.2.2.2.2.2.2⟩

/-! ## The spec's notion of the effective configuration, and concrete
test fixtures -/

/-- Modelled from the spec (§4.5 step 1), for comparison with the
source: the field-by-field right-biased merge of the caller's override
onto the currently active configuration, starting from the documented
defaults `confidence_threshold=0.25`, `iou_threshold=0.45`,
`max_detections=1000` when no active configuration exists. -/
def spec_effective_config (active : Option ModelConfiguration)
    (cc : CustomConfig) : ModelConfiguration :=
  match active with
  | some base =>
    { base with
      confidence_threshold := cc.confidence.getD base.confidence_threshold
      iou_threshold := cc.iou_threshold.getD base.iou_threshold
      max_detections := cc.max_detections.getD base.max_detections }
  | none =>
    { model_name := "GarIA.pt", model_path := "models/GarIA.pt"
      confidence_threshold := cc.confidence.getD (mkRat 1 4)
      iou_threshold := cc.iou_threshold.getD (mkRat 9 20)
      max_detections := cc.max_detections.getD 1000 }

/-- A concrete loaded YOLO handle used in witnesses. -/
def handle_w : ModelHandle := { id := 1, device := "cpu", task := "detect" }

/-- A benign concrete environment: the weights file exists, loading
succeeds, inference returns no boxes. -/
def env_ok : Env :=
  { path_exists := fun _ => true
    yolo_load := fun _ => .ok handle_w
    infer := fun _ _ _ => .ok []
    image_info := fun _ => [("source_type", "file_path")]
    elapsed := fun _ => mkRat 1 100
    now := 0 }

/-- An environment whose detector echoes the confidence threshold it
was invoked with as the confidence of a single returned box, making
the thresholds that actually reach the inference call observable in
the result. -/
def env_echo : Env :=
  { env_ok with
    infer := fun _ _ cfg =>
      .ok [{ class_id := 0, class_name := "echo", confidence := cfg.confidence,
             x1 := 0, y1 := 0, x2 := 10, y2 := 10 }] }

/-- A loader state holding the already-loaded GarIA model. -/
def loader_w : LoaderState := { model := some handle_w, model_path := some "GarIA.pt" }

/-! ## Claims about the loader and the service -/

/-- C8: once `load_model(m)` has succeeded, calling it again with the
same identifier returns the same handle and leaves the loader state
(handle and stored `model_path`) unchanged, while a different
identifier takes the fresh (re)load path, which may fail. -/
theorem load_model_idempotent (env : Env) (s s' : LoaderState)
    (m : String) (h : ModelHandle)
    (hl : load_model env s m = (.ok h, s')) :
    load_model env s' m = (.ok h, s') ∧
    s'.model = some h ∧ s'.model_path = some m ∧
    (∀ m2, m2 ≠ m → load_model env s' m2 = load_model_fresh env s' m2) := by
  have hmain : s'.model = some h ∧ s'.model_path = some m := by
    unfold load_model at hl
    cases hm : s.model with
    | none =>
      rw [hm] at hl
      unfold load_model_fresh at hl
      cases hy : env.yolo_load (resolve_model_path env m) with
      | ok h2 =>
        rw [hy] at hl
        simp only [Prod.mk.injEq, Except.ok.injEq] at hl
        obtain ⟨rfl, rfl⟩ := hl
        exact ⟨rfl, rfl⟩
      | error e => rw [hy] at hl; simp_all
    | some m0 =>
      rw [hm] at hl
      by_cases hp : s.model_path = some m
      · simp only [hp, if_true] at hl
        obtain ⟨h1, h2⟩ := Prod.mk.injEq .. ▸ hl
        simp only [Except.ok.injEq] at h1
        subst h2; subst h1
        exact ⟨hm, hp⟩
      · simp only [hp, if_false] at hl
        unfold load_model_fresh at hl
        cases hy : env.yolo_load (resolve_model_path env m) with
        | ok h2 =>
          rw [hy] at hl
          simp only [Prod.mk.injEq, Except.ok.injEq] at hl
          obtain ⟨rfl, rfl⟩ := hl
          exact ⟨rfl, rfl⟩
        | error e => rw [hy] at hl; simp_all
  obtain ⟨h1, h2⟩ := hmain
  refine ⟨?_, h1, h2, ?_⟩
  · unfold load_model
    rw [h1, h2]
    simp
  · intro m2 hm2
    unfold load_model
    rw [h1, h2]
    simp [Ne.symm hm2]

/-- Witness for C8: loading "GarIA.pt" into an empty loader succeeds
and a repeated call returns the cached handle with the state unchanged. -/
theorem load_model_idempotent_witness :
    load_model env_ok loader_w "GarIA.pt" = (.ok handle_w, loader_w) :=
  (load_model_idempotent env_ok {} loader_w "GarIA.pt" handle_w rfl).1

/-- C9: calling `detect_objects` with the override dict left at its
default `None` fails immediately (`custom_config.get('confidence', ...)`
dereferences `None`), for every environment — hence before any
validation, model load or inference — and leaves the service state
unchanged. -/
theorem detect_objects_none_raises (env : Env) (s : ServiceState)
    (source : ImageSource) :
    detect_objects env s source none =
      (.error "AttributeError: 'NoneType' object has no attribute 'get'", s) :=
  rfl

/-- C10: `initialize_model` returns a Bool instead of raising: `False`
with the whole state (in particular `self.model_config`) untouched on
an invalid configuration, and otherwise the success bit of the model
load, with `self.model_config` set to the new configuration even when
the load fails. -/
theorem initialize_model_spec (env : Env) (s : ServiceState)
    (mc : ModelConfiguration) :
    (mc.is_valid = false → initialize_model env s mc = (false, s)) ∧
    (mc.is_valid = true →
      initialize_model env s mc =
        ((load_model env s.loader mc.model_name).1.isOk,
         { model_config := some mc,
           loader := (load_model env s.loader mc.model_name).2 })) := by
  constructor
  · intro hv
    simp [initialize_model, hv]
  · intro hv
    unfold initialize_model
    rw [hv]
    simp only [if_true]
    rcases hl : load_model env s.loader mc.model_name with ⟨res, ls⟩
    cases res <;> simp [Except.isOk, Except.toBool, hl]

/-- The configuration `detect_objects` hard-codes when the caller's
dict supplies nothing: GarIA weights with the documented defaults. -/
def cfg_default : ModelConfiguration :=
  { model_name := "GarIA.pt", model_path := "models/GarIA.pt" }

/-- A configuration whose confidence threshold lies outside `[0,1]`. -/
def cfg_bad : ModelConfiguration :=
  { model_name := "GarIA.pt", model_path := "models/GarIA.pt",
    confidence_threshold := mkRat 3 2 }

/-- Witness for C10: an out-of-range threshold is rejected with the
state untouched; the defaults succeed against the benign environment. -/
theorem initialize_model_spec_witness :
    initialize_model env_ok {} cfg_bad = (false, {}) ∧
    initialize_model env_ok {} cfg_default =
      (true, { model_config := some cfg_default, loader := loader_w }) :=
  ⟨(initialize_model_spec env_ok {} cfg_bad).1 (by decide),
   by
    rw [(initialize_model_spec env_ok {} cfg_default).2 (by decide)]
    rfl⟩

instance {ε α : Type _} [DecidableEq ε] [DecidableEq α] :
    DecidableEq (Except ε α) := fun x y =>
  match x, y with
  | .ok a, .ok b => decidable_of_iff (a = b) (by simp)
  | .error a, .error b => decidable_of_iff (a = b) (by simp)
  | .ok _, .error _ => isFalse (by simp)
  | .error _, .ok _ => isFalse (by simp)

/-- A service state with the default GarIA configuration active and the
model loaded — the state after a successful initialization. -/
def s_active : ServiceState := { model_config := some cfg_default, loader := loader_w }

/-- An override dict carrying an out-of-range confidence (`1.5`). -/
def cc_invalid : CustomConfig := { confidence := some (mkRat 3 2) }

/-- C1 counterexample: with a valid configuration already active and the
model loaded, a request whose merged configuration is invalid
(confidence 1.5) is NOT rejected before inference: the run succeeds and
returns a DetectionResult, its detection carrying the out-of-range
confidence the echoing detector was invoked with. -/
theorem detect_objects_invalid_config_counterexample :
    (spec_effective_config (some cfg_default) cc_invalid).is_valid = false ∧
    ((detect_objects env_echo s_active "img.jpg" (some cc_invalid)).1.map
      (fun r => r.detections.map (·.confidence))) = .ok [mkRat 3 2] := by
  decide

/-- C1 (amended): when the request's merged configuration is invalid, the
silent failure of `initialize_model` leads to a rejection before any
inference call only if no configuration was already active: in that case,
for every environment, `detect_objects` returns the not-initialized error
with the state unchanged and produces no DetectionResult.  (When a valid
configuration is already stored the invalid merged values reach the
inference call instead — see the counterexample.) -/
theorem detect_objects_invalid_config_spec (env : Env) (s : ServiceState)
    (source : ImageSource) (cc : CustomConfig)
    (hinv : (constructed_config cc).is_valid = false) :
    detect_objects env s source (some cc) = detect_after_init env s source cc ∧
    (s.model_config = none →
      detect_objects env s source (some cc) =
        (.error "Modelo não inicializado. Chame initialize_model() primeiro.",
         s)) := by
  have h1 : initialize_model env s (constructed_config cc) = (false, s) := by
    simp [initialize_model, hinv]
  constructor
  · show detect_after_init env
      (initialize_model env s (constructed_config cc)).2 source cc = _
    rw [h1]
  · intro h0
    show detect_after_init env
      (initialize_model env s (constructed_config cc)).2 source cc = _
    rw [h1]
    simp [detect_after_init, h0]

/-- Witness for C1 (amended): starting with no active configuration, the
invalid override is rejected with an error and an unchanged state. -/
theorem detect_objects_invalid_config_spec_witness :
    detect_objects env_ok {} "img.jpg" (some cc_invalid) =
      (.error "Modelo não inicializado. Chame initialize_model() primeiro.",
       {}) :=
  (detect_objects_invalid_config_spec env_ok {} "img.jpg" cc_invalid
    (by decide)).2 rfl

/-- A valid active configuration with a raised confidence threshold. -/
def cfg_high : ModelConfiguration :=
  { model_name := "GarIA.pt", model_path := "models/GarIA.pt",
    confidence_threshold := mkRat 9 10 }

/-- A service state with `cfg_high` active and the model loaded. -/
def s_high : ServiceState := { model_config := some cfg_high, loader := loader_w }

/-- C2 counterexample: with active confidence `0.9` and an empty override,
the right-biased merge onto the active configuration would give an
effective confidence of `0.9`; the code instead replaces the active
configuration with the freshly constructed defaults before merging, so
the echoing detector observes confidence `0.25`. -/
theorem merge_not_onto_active_counterexample :
    (spec_effective_config (some cfg_high) {}).confidence_threshold = mkRat 9 10 ∧
    ((detect_objects env_echo s_high "img.jpg" (some {})).1.map
      (fun r => r.detections.map (·.confidence))) = .ok [mkRat 1 4] ∧
    mkRat 9 10 ≠ mkRat 1 4 := by
  decide

/-- C2 (amended): `_merge_configs` itself is field-by-field right-biased
over whatever configuration is active at merge time, and the defaults
apply when no configuration exists; but `detect_objects` re-initializes
first, so whenever the override-constructed configuration (override
values completed with the defaults 0.25/0.45/1000) is valid it replaces
the active configuration before the merge — fields absent from the
override then take the documented defaults, not the previously active
values, which survive as the merge base only when the constructed
configuration is invalid. -/
theorem merge_configs_spec (env : Env) (s : ServiceState) (cc : CustomConfig)
    (active : ModelConfiguration) :
    ((∀ v, cc.confidence = some v → (merge_configs active cc).confidence = v) ∧
     (cc.confidence = none →
       (merge_configs active cc).confidence = active.confidence_threshold) ∧
     (∀ v, cc.iou_threshold = some v →
       (merge_configs active cc).iou_threshold = v) ∧
     (cc.iou_threshold = none →
       (merge_configs active cc).iou_threshold = active.iou_threshold) ∧
     (∀ v, cc.max_detections = some v →
       (merge_configs active cc).max_detections = v) ∧
     (cc.max_detections = none →
       (merge_configs active cc).max_detections = active.max_detections)) ∧
    ((constructed_config cc).is_valid = true →
      (initialize_model env s (constructed_config cc)).2.model_config =
        some (constructed_config cc) ∧
      merge_configs (constructed_config cc) cc =
        { confidence := cc.confidence.getD (mkRat 1 4)
          iou_threshold := cc.iou_threshold.getD (mkRat 9 20)
          max_detections := cc.max_detections.getD 1000
          class_ids := cc.class_ids }) ∧
    ((constructed_config cc).is_valid = false →
      (initialize_model env s (constructed_config cc)).2 = s) := by
  refine ⟨⟨?_, ?_, ?_, ?_, ?_, ?_⟩, ?_, ?_⟩
  · intro v hv; simp [merge_configs, hv]
  · intro hv; simp [merge_configs, hv]
  · intro v hv; simp [merge_configs, hv]
  · intro hv; simp [merge_configs, hv]
  · intro v hv; simp [merge_configs, hv]
  · intro hv; simp [merge_configs, hv]
  · intro hv
    constructor
    · unfold initialize_model
      rw [hv]
      simp only [if_true]
      rcases hl : load_model env s.loader (constructed_config cc).model_name
        with ⟨res, ls⟩
      cases res <;> simp
    · cases hc : cc.confidence <;> cases hi : cc.iou_threshold <;>
        cases hm : cc.max_detections <;>
        simp [merge_configs, constructed_config, hc, hi, hm]
  · intro hv
    simp [initialize_model, hv]

/-- Witness for C2 (amended), realizing the spec's own example: override
confidence 0.5 takes precedence; a valid constructed configuration is
installed as the active one. -/
theorem merge_configs_spec_witness :
    (merge_configs cfg_high { confidence := some (mkRat 1 2) }).confidence =
      mkRat 1 2 ∧
    (initialize_model env_ok s_high (constructed_config {})).2.model_config =
      some (constructed_config {}) :=
  ⟨(merge_configs_spec env_ok s_high { confidence := some (mkRat 1 2) }
      cfg_high).1.1 (mkRat 1 2) rfl,
   ((merge_configs_spec env_ok s_high {} cfg_high).2.1 (by decide)).1⟩

/-- Helper: the statistics' total always equals the stored detection
count, in both branches of `get_statistics`. -/
lemma stats_total_eq (r : DetectionResult) :
    r.get_statistics.total_detections = r.detections.length := by
  obtain ⟨dets, info, pt, mi, ts⟩ := r
  cases dets <;> rfl

/-- C7: on every successful `detect_objects` run, the result's detections
are exactly the converted raw predictions filtered by membership of
`class_name` in the `target_classes` of the configuration active at the
filter step, in the detector's output order — the filter applies after
conversion, and no detection is dropped when `target_classes` is absent;
the result's statistics are computed from the retained detections only. -/
theorem detect_objects_target_classes_spec (env : Env) (s : ServiceState)
    (source : ImageSource) (cc : CustomConfig) (r : DetectionResult)
    (s2 : ServiceState)
    (hok : detect_objects env s source (some cc) = (.ok r, s2)) :
    ∃ amc raw,
      s2.model_config = some amc ∧
      predict env s2.loader source (merge_configs amc cc) = .ok raw ∧
      (∀ tcs, amc.target_classes = some tcs →
        r.detections = (convert_to_domain_entities raw).filter
          (fun d => tcs.contains d.class_name)) ∧
      (amc.target_classes = none →
        r.detections = convert_to_domain_entities raw) ∧
      r.get_statistics.total_detections = r.detections.length := by
  have hok2 : detect_after_init env
      (initialize_model env s (constructed_config cc)).2 source cc =
        (.ok r, s2) := hok
  set s1 := (initialize_model env s (constructed_config cc)).2 with hs1
  unfold detect_after_init at hok2
  cases hmc : s1.model_config with
  | none => simp only [hmc] at hok2; simp at hok2
  | some amc =>
    simp only [hmc] at hok2
    cases hp : predict env s1.loader source (merge_configs amc cc) with
    | error e => simp only [hp] at hok2; simp at hok2
    | ok raw =>
      simp only [hp] at hok2
      simp only [Prod.mk.injEq, Except.ok.injEq] at hok2
      obtain ⟨hr, hs2⟩ := hok2
      subst hs2
      refine ⟨amc, raw, hmc, hp, ?_, ?_, stats_total_eq r⟩
      · intro tcs htc
        rw [← hr]
        simp [htc]
      · intro htc
        rw [← hr]
        simp [htc]

/-- A valid configuration carrying the spec's example allow-list. -/
def cfg_target : ModelConfiguration :=
  { model_name := "GarIA.pt", model_path := "models/GarIA.pt",
    target_classes := some ["bottle"] }

/-- A service state with `cfg_target` active and the model loaded. -/
def s_target : ServiceState :=
  { model_config := some cfg_target, loader := loader_w }

/-- An environment whose detector returns the spec's two example boxes. -/
def env_two : Env :=
  { env_ok with
    infer := fun _ _ _ => .ok
      [{ class_id := 0, class_name := "bottle", confidence := mkRat 9 10,
         x1 := 0, y1 := 0, x2 := 10, y2 := 10 },
       { class_id := 1, class_name := "bag", confidence := mkRat 1 10,
         x1 := 5, y1 := 5, x2 := 8, y2 := 8 }] }

/-- The converted "bottle" detection of the two-box stub. -/
def det_bottle : Detection :=
  { class_id := 0, class_name := "bottle", confidence := mkRat 9 10,
    bbox := { x1 := 0, y1 := 0, x2 := 10, y2 := 10 } }

/-- The result of running the two-box stub against `s_target` with the
invalid override (which leaves the active allow-list in place): only the
"bottle" detection is retained. -/
def r_target : DetectionResult :=
  { detections := [det_bottle]
    image_info := [("source_type", "file_path")]
    processing_time := mkRat 1 100
    model_info := .loaded (some "GarIA.pt") "cpu" "detect"
    timestamp := 0 }

/-- Witness for C7 at the spec's own example: with
`target_classes={"bottle"}` active, only the "bottle" box survives. -/
theorem detect_objects_target_classes_spec_witness :
    ∃ amc raw,
      s_target.model_config = some amc ∧
      predict env_two s_target.loader "img.jpg" (merge_configs amc cc_invalid)
        = .ok raw ∧
      (∀ tcs, amc.target_classes = some tcs →
        r_target.detections = (convert_to_domain_entities raw).filter
          (fun d => tcs.contains d.class_name)) ∧
      (amc.target_classes = none →
        r_target.detections = convert_to_domain_entities raw) ∧
      r_target.get_statistics.total_detections = r_target.detections.length :=
  detect_objects_target_classes_spec env_two s_target "img.jpg" cc_invalid
    r_target s_target (by decide)

/-- C6: the batch call returns exactly one result per input, in input
order, and never raises (it is total by construction, mirroring the
per-item `except Exception`): slot `i` is the outcome of running
`detect_objects` on the `i`-th source from the state threaded through
the first `i` items — the successful result when that run succeeds, and
otherwise a degraded result with no detections, the error description in
`image_info`, zero processing time, and the loader's current provenance,
the other slots being computed independently of the failure. -/
theorem detect_objects_batch_spec (env : Env) (sources : List ImageSource)
    (s : ServiceState) (cc : Option CustomConfig) :
    (detect_objects_batch env s sources cc).1.length = sources.length ∧
    (∀ i (hi : i < sources.length),
      (detect_objects_batch env s sources cc).1[i]? =
        some (batch_slot env
          (detect_objects_batch env s (sources.take i) cc).2 cc
          (sources.get ⟨i, hi⟩))) ∧
    (∀ (s0 : ServiceState) (source : ImageSource) (r : DetectionResult),
      (detect_objects env s0 source cc).1 = .ok r →
      batch_slot env s0 cc source = r) ∧
    (∀ (s0 : ServiceState) (source : ImageSource) (e : String),
      (detect_objects env s0 source cc).1 = .error e →
      batch_slot env s0 cc source =
        batch_error_result env (detect_objects env s0 source cc).2.loader e ∧
      (batch_slot env s0 cc source).detections = [] ∧
      (batch_slot env s0 cc source).image_info = [("error", e)] ∧
      (batch_slot env s0 cc source).processing_time = 0 ∧
      (batch_slot env s0 cc source).model_info =
        get_model_info (detect_objects env s0 source cc).2.loader) := by
  refine ⟨?_, ?_, ?_, ?_⟩
  · induction sources generalizing s with
    | nil => rfl
    | cons a l ih =>
      simpa [detect_objects_batch] using ih (detect_objects env s a cc).2
  · induction sources generalizing s with
    | nil => exact fun i hi => absurd hi (Nat.not_lt_zero i)
    | cons a l ih =>
      intro i hi
      cases i with
      | zero => simp [detect_objects_batch]
      | succ j =>
        have hj : j < l.length := Nat.lt_of_succ_lt_succ hi
        simpa [detect_objects_batch, List.take_succ_cons,
          List.getElem?_cons_succ, List.get_cons_succ]
          using ih (detect_objects env s a cc).2 j hj
  · intro s0 source r h
    unfold batch_slot
    rw [h]
  · intro s0 source e h
    unfold batch_slot
    rw [h]
    exact ⟨rfl, rfl, rfl, rfl, rfl⟩

/-- Witness for C6: a two-image batch with the `None` override (every
item fails with the AttributeError) still yields two results, each a
degraded record carrying the error text. -/
theorem detect_objects_batch_spec_witness :
    (detect_objects_batch env_ok {} ["a", "b"] none).1.length = 2 ∧
    (batch_slot env_ok {} none "a").detections = [] ∧
    (batch_slot env_ok {} none "a").image_info =
      [("error", "AttributeError: 'NoneType' object has no attribute 'get'")] :=
  ⟨(detect_objects_batch_spec env_ok ["a", "b"] {} none).1,
   ((detect_objects_batch_spec env_ok ["a", "b"] {} none).2.2.2 {} "a"
      "AttributeError: 'NoneType' object has no attribute 'get'" rfl).2.1,
   ((detect_objects_batch_spec env_ok ["a", "b"] {} none).2.2.2 {} "a"
      "AttributeError: 'NoneType' object has no attribute 'get'" rfl).2.2.1⟩
